import Mathlib

/-!
Shallow embedding of the roboclic-v2 bot's core logic (src/commands.rs):
the access-control gate (`require_authorization`, `require_admin`), the
authorization-store mutations (`authorize`, `unauthorize`), admin removal
(`admin_remove`), and the three-step poll dialogue
(`start_poll_dialogue`, `choose_target`, `set_quote`) with its quiz
composition algorithm (`composePoll`).

Modelling conventions:
- SQL tables are lists of rows; `SELECT COUNT(*)` becomes the length of a
  `List.filter`; `DELETE ... WHERE` becomes a filter keeping non-matching
  rows; `INSERT` appends a row.
- The Telegram side effects tracked are the ones the claims talk about:
  deleted message ids, sent polls (options and correct index), and a
  counter allocating fresh message ids for sent messages.
- Randomness (`shuffle`, `thread_rng().gen_range`) is passed in as explicit
  parameters; the range contract of `gen_range(0..9)` appears as a
  hypothesis where needed.
- Rust panics (here: `Vec::insert` with an out-of-bounds index) are
  modelled by `Option`, `none` meaning the handler aborts.
- Fallible database calls for the gate predicates are modelled with
  `Except`; the rest of the modelled handlers' queries are modelled on the
  success path, which is the path every claim speaks about.
-/

namespace Roboclic

/-- `POLL_MAX_OPTIONS_COUNT` from src/commands.rs line 16 (max poll options). -/
def POLL_MAX_OPTIONS_COUNT : Nat := 10

-- ----------------------------- ACCESS CONTROL -------------------------------

/-- A data-access failure (connection or query error) from the SQLite pool. -/
inductive DbError
  | unavailable
  deriving DecidableEq

/-- Filter of `require_authorization` (src/commands.rs lines 67-88): the
`SELECT COUNT(*) FROM authorizations ...` result is `queryResult`; an `Ok`
count admits iff positive, an `Err` is logged and yields `false`. -/
def require_authorization (queryResult : Except DbError Int) : Bool :=
  match queryResult with
  | Except.ok count => decide (0 < count)
  | Except.error _ => false

/-- Filter of `require_admin` (src/commands.rs lines 93-111): a message with
no `from` user returns `false` before any query; otherwise the
`SELECT COUNT(*) FROM admins WHERE telegram_id = $1` result for that user id
admits iff `Ok` with positive count (`is_ok_and(|r| r.is_admin > 0)`). -/
def require_admin (sender : Option Nat) (store : Nat → Except DbError Int) : Bool :=
  match sender with
  | none => false
  | some userId =>
    match store userId with
    | Except.ok count => decide (0 < count)
    | Except.error _ => false

-- ------------------------- AUTHORIZATION STORE ------------------------------

/-- The `authorizations` table: rows `(chat_id, command)`. -/
abbrev AuthStore := List (String × String)

/-- `SELECT COUNT(*) FROM authorizations WHERE chat_id = $1 AND command = $2`. -/
def countAuthorizations (s : AuthStore) (chat command : String) : Nat :=
  (s.filter (fun row => row.1 == chat && row.2 == command)).length

/-- The authorization predicate evaluated on a concrete store state: the
count test `result.count > 0` of `require_authorization`. -/
def isCommandAuthorized (s : AuthStore) (chat command : String) : Bool :=
  decide (0 < countAuthorizations s chat command)

/-- `authorize` endpoint (src/commands.rs lines 270-300): inside one
transaction, count matching rows and insert only when the count is zero. -/
def authorize (s : AuthStore) (chat command : String) : AuthStore :=
  if countAuthorizations s chat command = 0 then s ++ [(chat, command)] else s

/-- `unauthorize` endpoint (src/commands.rs lines 302-340): inside one
transaction, count matching rows and delete the matching rows only when the
count is positive. -/
def unauthorize (s : AuthStore) (chat command : String) : AuthStore :=
  if 0 < countAuthorizations s chat command then
    s.filter (fun row => !(row.1 == chat && row.2 == command))
  else s

-- ----------------------------- ADMIN STORE ----------------------------------

/-- The `admins` table: rows `(telegram_id, name)`. -/
abbrev AdminStore := List (String × String)

/-- The user-visible reply of `admin_remove`: either the French
"<name> n'est pas admin" message or the removal confirmation. -/
inductive AdminRemoveReply
  | notAnAdmin (name : String)
  | removed (name : String)
  deriving DecidableEq

/-- `admin_remove` endpoint (src/commands.rs lines 245-268): count rows whose
`name` matches; when zero, reply "not an admin" and return `Ok` leaving the
table untouched; otherwise delete all matching rows and confirm. Both
branches are normal returns, not errors. -/
def admin_remove (s : AdminStore) (name : String) : AdminStore × AdminRemoveReply :=
  if (s.filter (fun row => row.2 == name)).length = 0 then
    (s, AdminRemoveReply.notAnAdmin name)
  else
    (s.filter (fun row => !(row.2 == name)), AdminRemoveReply.removed name)

-- ----------------------------- POLL DIALOGUE --------------------------------

/-- `PollState` (src/commands.rs lines 447-462), the per-chat dialogue
state; `Start` is the `#[default]` variant. Message texts are elided;
message ids are `Nat`. -/
inductive PollState
  | Start
  | ChooseTarget (message_id : Nat)
  | SetQuote (message_id : Nat) (target : String)
  deriving DecidableEq

instance : Inhabited PollState := ⟨PollState.Start⟩

/-- The observable state a dialogue handler touches: the chat's dialogue
state, the `committee` table as rows `(name, poll_count)`, a fresh-id
counter for sent messages, the ids of deleted messages, and the polls sent
as `(options, correct_option_id)` pairs. -/
structure World where
  dialogue : PollState
  committee : List (String × Nat)
  nextMessageId : Nat
  deletedMessages : List Nat
  sentPolls : List (List String × Nat)
  deriving DecidableEq

/-- `bot.delete_message`: records the deleted message id. -/
def deleteMessage (w : World) (id : Nat) : World :=
  { w with deletedMessages := w.deletedMessages ++ [id] }

/-- `bot.send_message`: allocates and returns a fresh message id. -/
def sendMessage (w : World) : World × Nat :=
  ({ w with nextMessageId := w.nextMessageId + 1 }, w.nextMessageId)

/-- Quiz composition inside `set_quote` (src/commands.rs lines 558-574):
retain the non-target committee names, shuffle them, insert the target at
the externally drawn `index`, and truncate to the first
`POLL_MAX_OPTIONS_COUNT` options when longer. `Vec::insert` panics when
`index` exceeds the length of the shuffled decoy pool; that abort is
`none`. -/
def composePoll (committee : List String) (target : String)
    (shuffle : List String → List String) (index : Nat) :
    Option (List String × Nat) :=
  let decoys := shuffle (committee.filter (fun s => s != target))
  if index ≤ decoys.length then
    let poll := decoys.insertIdx index target
    some ((if POLL_MAX_OPTIONS_COUNT < poll.length
           then poll.take POLL_MAX_OPTIONS_COUNT else poll), index)
  else none

/-- `start_poll_dialogue` (src/commands.rs lines 466-514): delete the /poll
command message, send the target-chooser keyboard built from the committee,
and move the dialogue to `ChooseTarget` with the chooser message id. -/
def start_poll_dialogue (w : World) (pollMsgId : Nat) : World :=
  let w1 := deleteMessage w pollMsgId
  let sent := sendMessage w1
  { sent.1 with dialogue := PollState.ChooseTarget sent.2 }

/-- `choose_target` (src/commands.rs lines 518-541): when the callback query
has a chat id, delete the chooser message, send the quote prompt, and move
the dialogue to `SetQuote` with the prompt id and the callback data
(`unwrap_or_default`); otherwise do nothing. -/
def choose_target (w : World) (callbackChatId : Option Nat)
    (callbackData : Option String) (message_id : Nat) : World :=
  match callbackChatId with
  | none => w
  | some _ =>
    let w1 := deleteMessage w message_id
    let sent := sendMessage w1
    { sent.1 with dialogue := PollState.SetQuote sent.2 (callbackData.getD "") }

/-- `set_quote` (src/commands.rs lines 545-599): when the incoming message
has text, delete the quote prompt and the quote message, compose the quiz
from the committee names, send it, increment `poll_count` of every committee
row named `target` (`UPDATE committee SET poll_count = poll_count + 1 WHERE
name = $1`), and reset the dialogue to `Start`. A message without text takes
no branch and the handler returns `Ok` at once. -/
def set_quote (w : World) (quoteMsgId : Nat) (text : Option String)
    (message_id : Nat) (target : String)
    (shuffle : List String → List String) (index : Nat) : Option World :=
  match text with
  | none => some w
  | some _ =>
    let w1 := deleteMessage (deleteMessage w message_id) quoteMsgId
    match composePoll (w1.committee.map Prod.fst) target shuffle index with
    | none => none
    | some pollAndIndex =>
      let w2 := { w1 with sentPolls := w1.sentPolls ++ [pollAndIndex] }
      let bump := fun (row : String × Nat) =>
        if row.1 == target then (row.1, row.2 + 1) else row
      let w3 := { w2 with committee := w2.committee.map bump }
      some { w3 with dialogue := PollState.Start }

-- ------------------------------ HELPER LEMMAS -------------------------------

/-- Inserting an element at a position within bounds is, up to permutation,
the same as consing it in front. -/
theorem insertIdx_perm_cons {α : Type _} (a : α) :
    ∀ (n : Nat) (l : List α), n ≤ l.length → (l.insertIdx n a).Perm (a :: l)
  | 0, l, _ => by simp
  | n + 1, [], h => by simp at h
  | n + 1, x :: l, h => by
    rw [List.insertIdx_succ_cons]
    exact ((insertIdx_perm_cons a n l (Nat.le_of_succ_le_succ h)).cons x).trans
      (List.Perm.swap a x l)

-- -------------------------------- THEOREMS ----------------------------------

/-- C2 (code bug): the drawn index can exceed the length of the shuffled
decoy pool. With roster ["a", "b", "c"], target "b" (decoy pool of length 2)
and the legal draw `index = 7` from `[0, POLL_MAX_OPTIONS_COUNT - 1)`, the
`Vec::insert` call is out of bounds and the composer panics (modelled as
`none`), contradicting the claim that the panic branch is unreachable for
every roster size. -/
theorem composePoll_insert_out_of_bounds :
    composePoll ["a", "b", "c"] "b" id 7 = none := by decide

/-- C3: on a data-access failure, `require_authorization` and
`require_admin` both evaluate to `false` (deny); both filters return a
`Bool`, so no error reaches the command dispatch layer. -/
theorem gate_fail_closed :
    ∀ (e : DbError) (u : Nat),
      require_authorization (Except.error e) = false ∧
      require_admin (some u) (fun _ => Except.error e) = false :=
  fun _ _ => ⟨rfl, rfl⟩

/-- C8: an inbound event with no resolvable sender identity makes
`require_admin` return `false` unconditionally, whatever the admin store
would answer — the store is never consulted. -/
theorem require_admin_no_sender :
    ∀ (store : Nat → Except DbError Int), require_admin none store = false :=
  fun _ => rfl

/-- C10: in state `SetQuote`, a message without text makes `set_quote`
return success (`some`) while changing nothing: no deletion, no poll, no
quiz-count change, and the session keeps the same `SetQuote` state with the
same message reference and target. -/
theorem set_quote_no_text_noop (w : World) (quoteMsgId m : Nat) (t : String)
    (shuffle : List String → List String) (index : Nat)
    (h : w.dialogue = PollState.SetQuote m t) :
    set_quote w quoteMsgId none m t shuffle index = some w ∧
      (set_quote w quoteMsgId none m t shuffle index).map World.dialogue
        = some (PollState.SetQuote m t) := by
  exact ⟨rfl, by simp [set_quote, h]⟩

/-- Witness for C10 at a concrete world in state `SetQuote 3 "a"`. -/
theorem set_quote_no_text_noop_witness :
    set_quote ⟨PollState.SetQuote 3 "a", [("a", 0)], 9, [], []⟩ 5 none 3 "a" id 0
        = some ⟨PollState.SetQuote 3 "a", [("a", 0)], 9, [], []⟩ ∧
      (set_quote ⟨PollState.SetQuote 3 "a", [("a", 0)], 9, [], []⟩ 5 none 3 "a" id 0).map
          World.dialogue = some (PollState.SetQuote 3 "a") :=
  set_quote_no_text_noop ⟨PollState.SetQuote 3 "a", [("a", 0)], 9, [], []⟩ 5 3 "a" id 0 rfl

/-- C7 (code bug): invoked with target "x" absent from the roster
[("a", 0), ("b", 0)], `set_quote` does not abort: it produces and sends a
quiz whose options contain the absent target "x", leaves every quiz-count
unchanged (the `UPDATE ... WHERE name = $1` matches no row), and resets the
dialogue to `Start` — it silently proceeds instead of failing fast. -/
theorem set_quote_absent_target_proceeds :
    set_quote ⟨PollState.SetQuote 10 "x", [("a", 0), ("b", 0)], 20, [], []⟩
        11 (some "q") 10 "x" id 0
      = some ⟨PollState.Start, [("a", 0), ("b", 0)], 20, [10, 11],
          [(["x", "a", "b"], 0)]⟩ := by decide

/-- C1 (counterexample): on the duplicate-free roster ["a", "b"] of size 2
with target "a" in it and the legal draw `index = 5` from
`[0, POLL_MAX_OPTIONS_COUNT - 1)`, the composer does not return at all
(out-of-bounds insert, modelled as `none`), so the claimed postconditions
fail for rosters of size at least 2. -/
theorem composePoll_small_roster_aborts :
    composePoll ["a", "b"] "a" id 5 = none := by decide

/-- C1 (amended): for every duplicate-free roster containing the target,
with size at least 2, any shuffle that permutes the decoy pool, and any
drawn index below `POLL_MAX_OPTIONS_COUNT - 1` that moreover does not
exceed the decoy-pool size (`index + 1 ≤ |R|`; automatic once `|R| ≥ 9`, and
exactly the condition under which the insert does not panic), the composer
returns the drawn index, an option list of length `min |R| M`, and the
target sits at that index of the list. -/
theorem composePoll_correct (committee : List String) (target : String)
    (shuffle : List String → List String) (index : Nat)
    (hnd : committee.Nodup) (hmem : target ∈ committee)
    (hlen : 2 ≤ committee.length)
    (hperm : (shuffle (committee.filter (fun s => s != target))).Perm
      (committee.filter (fun s => s != target)))
    (hidx9 : index < POLL_MAX_OPTIONS_COUNT - 1)
    (hidx : index + 1 ≤ committee.length) :
    ∃ options, composePoll committee target shuffle index = some (options, index) ∧
      index < POLL_MAX_OPTIONS_COUNT - 1 ∧
      options.length = min committee.length POLL_MAX_OPTIONS_COUNT ∧
      options[index]? = some target := by
  have hfl : (committee.filter (fun s => s != target)).length = committee.length - 1 := by
    rw [← List.Nodup.erase_eq_filter hnd target]
    exact List.length_erase_of_mem hmem
  have hdl : (shuffle (committee.filter (fun s => s != target))).length
      = committee.length - 1 := by
    rw [hperm.length_eq, hfl]
  have hle : index ≤ (shuffle (committee.filter (fun s => s != target))).length := by
    omega
  have hpl : ((shuffle (committee.filter (fun s => s != target))).insertIdx index
      target).length = committee.length := by
    rw [List.length_insertIdx index _ hle, hdl]
    omega
  have hidxlt : index < ((shuffle (committee.filter (fun s => s != target))).insertIdx
      index target).length := by omega
  have hget : ((shuffle (committee.filter (fun s => s != target))).insertIdx index
      target)[index]? = some target := by
    rw [List.getElem?_eq_getElem hidxlt]
    exact congrArg some (List.getElem_insertIdx_self _ _ _ hle)
  by_cases hbig : POLL_MAX_OPTIONS_COUNT
      < ((shuffle (committee.filter (fun s => s != target))).insertIdx index target).length
  · refine ⟨((shuffle (committee.filter (fun s => s != target))).insertIdx index
        target).take POLL_MAX_OPTIONS_COUNT, ?_, hidx9, ?_, ?_⟩
    · simp only [composePoll]
      rw [if_pos hle, if_pos hbig]
    · rw [List.length_take, hpl]
      simp only [POLL_MAX_OPTIONS_COUNT] at hbig ⊢
      omega
    · rw [List.getElem?_take,
        if_pos (by simp only [POLL_MAX_OPTIONS_COUNT] at hidx9 ⊢; omega), hget]
  · refine ⟨(shuffle (committee.filter (fun s => s != target))).insertIdx index target,
      ?_, hidx9, ?_, hget⟩
    · simp only [composePoll]
      rw [if_pos hle, if_neg hbig]
    · rw [hpl]
      simp only [POLL_MAX_OPTIONS_COUNT] at hbig ⊢
      omega

/-- Witness for C1 at roster ["a", "b", "c"], target "b", identity shuffle
and drawn index 1. -/
theorem composePoll_correct_witness :
    (["a", "b", "c"] : List String).Nodup ∧
    (∃ options, composePoll ["a", "b", "c"] "b" id 1 = some (options, 1) ∧
      1 < POLL_MAX_OPTIONS_COUNT - 1 ∧
      options.length = min (["a", "b", "c"] : List String).length POLL_MAX_OPTIONS_COUNT ∧
      options[1]? = some "b") :=
  ⟨by decide, composePoll_correct ["a", "b", "c"] "b" id 1 (by decide) (by decide)
    (by decide) (List.Perm.refl _) (by decide) (by decide)⟩

/-- C6: whenever the composer returns an option list at all, for a
duplicate-free roster containing the target and a shuffle that permutes the
decoy pool, every option is a roster name and the list has no duplicates. -/
theorem composePoll_options_sound (committee : List String) (target : String)
    (shuffle : List String → List String) (index : Nat)
    (options : List String) (correct : Nat)
    (hnd : committee.Nodup) (hmem : target ∈ committee)
    (hperm : (shuffle (committee.filter (fun s => s != target))).Perm
      (committee.filter (fun s => s != target)))
    (hres : composePoll committee target shuffle index = some (options, correct)) :
    (∀ x ∈ options, x ∈ committee) ∧ options.Nodup := by
  simp only [composePoll] at hres
  split at hres
  case isFalse => exact absurd hres (by simp)
  case isTrue hle =>
    have hopts : options = if POLL_MAX_OPTIONS_COUNT
        < ((shuffle (committee.filter (fun s => s != target))).insertIdx index target).length
        then ((shuffle (committee.filter (fun s => s != target))).insertIdx index
          target).take POLL_MAX_OPTIONS_COUNT
        else (shuffle (committee.filter (fun s => s != target))).insertIdx index target := by
      have h2 := Option.some.inj hres
      exact congrArg Prod.fst h2.symm
    have hpoll : ((shuffle (committee.filter (fun s => s != target))).insertIdx index
        target).Perm (target :: shuffle (committee.filter (fun s => s != target))) :=
      insertIdx_perm_cons target index _ hle
    have hmemcons : ∀ x ∈ target :: shuffle (committee.filter (fun s => s != target)),
        x ∈ committee := by
      intro x hx
      rcases List.mem_cons.1 hx with hx | hx
      · exact hx ▸ hmem
      · exact (List.mem_filter.1 (hperm.subset hx)).1
    have hd1 : (shuffle (committee.filter (fun s => s != target))).Nodup :=
      hperm.nodup_iff.2 (hnd.filter _)
    have htn : target ∉ shuffle (committee.filter (fun s => s != target)) := by
      intro hmem2
      have hf := List.mem_filter.1 (hperm.subset hmem2)
      simp at hf
    have hpn : ((shuffle (committee.filter (fun s => s != target))).insertIdx index
        target).Nodup :=
      hpoll.nodup_iff.2 (List.nodup_cons.2 ⟨htn, hd1⟩)
    constructor
    · intro x hx
      rw [hopts] at hx
      have hxp : x ∈ (shuffle (committee.filter (fun s => s != target))).insertIdx index
          target := by
        by_cases hbig : POLL_MAX_OPTIONS_COUNT
            < ((shuffle (committee.filter (fun s => s != target))).insertIdx index
              target).length
        · rw [if_pos hbig] at hx
          exact (List.take_sublist _ _).subset hx
        · rwa [if_neg hbig] at hx
      exact hmemcons x (hpoll.subset hxp)
    · rw [hopts]
      by_cases hbig : POLL_MAX_OPTIONS_COUNT
          < ((shuffle (committee.filter (fun s => s != target))).insertIdx index
            target).length
      · rw [if_pos hbig]
        exact (List.take_sublist _ _).nodup hpn
      · rwa [if_neg hbig]

/-- Witness for C6 at roster ["a", "b", "c"], target "a", identity shuffle
and drawn index 0. -/
theorem composePoll_options_sound_witness :
    composePoll ["a", "b", "c"] "a" id 0 = some (["a", "b", "c"], 0) ∧
    ((∀ x ∈ (["a", "b", "c"] : List String), x ∈ (["a", "b", "c"] : List String)) ∧
      (["a", "b", "c"] : List String).Nodup) :=
  ⟨by decide, composePoll_options_sound ["a", "b", "c"] "a" id 0 ["a", "b", "c"] 0
    (by decide) (by decide) (List.Perm.refl _) (by decide)⟩

/-- C4: for every store, chat and command, the chat is authorized right
after `authorize` and unauthorized right after `unauthorize`, and both
endpoints are idempotent on the store. -/
theorem authorize_unauthorize_spec :
    ∀ (s : AuthStore) (c k : String),
      isCommandAuthorized (authorize s c k) c k = true ∧
      isCommandAuthorized (unauthorize s c k) c k = false ∧
      authorize (authorize s c k) c k = authorize s c k ∧
      unauthorize (unauthorize s c k) c k = unauthorize s c k := by
  intro s c k
  have happ : countAuthorizations (s ++ [(c, k)]) c k = countAuthorizations s c k + 1 := by
    simp [countAuthorizations, List.filter_append]
  have hdel : countAuthorizations
      (s.filter (fun row => !(row.1 == c && row.2 == k))) c k = 0 := by
    simp only [countAuthorizations, List.length_eq_zero, List.filter_eq_nil_iff]
    intro row hrow
    have hr := (List.mem_filter.1 hrow).2
    simp at hr ⊢
    tauto
  have hauth : 0 < countAuthorizations (authorize s c k) c k := by
    unfold authorize
    by_cases h : countAuthorizations s c k = 0
    · rw [if_pos h, happ]; omega
    · rw [if_neg h]; omega
  have hunauth : countAuthorizations (unauthorize s c k) c k = 0 := by
    unfold unauthorize
    by_cases h : 0 < countAuthorizations s c k
    · rw [if_pos h]; exact hdel
    · rw [if_neg h]; omega
  refine ⟨?_, ?_, ?_, ?_⟩
  · simp [isCommandAuthorized, hauth]
  · simp [isCommandAuthorized, hunauth]
  · exact if_neg (by omega)
  · exact if_neg (by omega)

/-- C5: from `Start` (which is also the default session state), the full
successful sequence /poll → target selection → quote text brings the
dialogue back to exactly `Start`, incrementing the quiz-count of every
committee row named `target` by 1 and leaving every other row unchanged. -/
theorem poll_dialogue_roundtrip (w : World) (pollMsgId chatId quoteMsgId : Nat)
    (target quote : String)
    (shuffle : List String → List String) (index : Nat)
    (hperm : ∀ l, (shuffle l).Perm l)
    (hidx : index ≤ ((w.committee.map Prod.fst).filter (fun s => s != target)).length) :
    (default : PollState) = PollState.Start ∧
    (start_poll_dialogue w pollMsgId).dialogue = PollState.ChooseTarget w.nextMessageId ∧
    (choose_target (start_poll_dialogue w pollMsgId) (some chatId) (some target)
        w.nextMessageId).dialogue = PollState.SetQuote (w.nextMessageId + 1) target ∧
    ∃ wEnd,
      set_quote (choose_target (start_poll_dialogue w pollMsgId) (some chatId) (some target)
          w.nextMessageId) quoteMsgId (some quote) (w.nextMessageId + 1) target shuffle index
        = some wEnd ∧
      wEnd.dialogue = PollState.Start ∧
      wEnd.committee = w.committee.map
        (fun row => if row.1 == target then (row.1, row.2 + 1) else row) := by
  have hle : index
      ≤ (shuffle ((w.committee.map Prod.fst).filter (fun s => s != target))).length := by
    rw [(hperm _).length_eq]; exact hidx
  refine ⟨rfl, rfl, rfl, ?_⟩
  simp only [set_quote, choose_target, start_poll_dialogue, deleteMessage, sendMessage,
    composePoll]
  rw [if_pos hle]
  exact ⟨_, rfl, rfl, rfl⟩

/-- Witness for C5: a two-member committee, target "a", identity shuffle,
drawn index 1. -/
theorem poll_dialogue_roundtrip_witness :
    (default : PollState) = PollState.Start ∧
    (start_poll_dialogue ⟨PollState.Start, [("a", 0), ("b", 2)], 100, [], []⟩ 7).dialogue
      = PollState.ChooseTarget 100 ∧
    (choose_target
        (start_poll_dialogue ⟨PollState.Start, [("a", 0), ("b", 2)], 100, [], []⟩ 7)
        (some 1) (some "a") 100).dialogue = PollState.SetQuote 101 "a" ∧
    ∃ wEnd,
      set_quote (choose_target
          (start_poll_dialogue ⟨PollState.Start, [("a", 0), ("b", 2)], 100, [], []⟩ 7)
          (some 1) (some "a") 100) 50 (some "q") 101 "a" id 1 = some wEnd ∧
      wEnd.dialogue = PollState.Start ∧
      wEnd.committee = ([("a", 0), ("b", 2)] : List (String × Nat)).map
        (fun row => if row.1 == "a" then (row.1, row.2 + 1) else row) :=
  poll_dialogue_roundtrip ⟨PollState.Start, [("a", 0), ("b", 2)], 100, [], []⟩ 7 1 50 "a" "q"
    id 1 (fun l => List.Perm.refl l) (by decide)

/-- C9: `admin_remove` deletes exactly the admin rows whose display name
matches when at least one exists, and otherwise replies "not an admin" as a
normal outcome, leaving the store unchanged; both branches are plain
returns, no error is raised. -/
theorem admin_remove_spec (s : AdminStore) (name : String) :
    ((s.filter (fun row => row.2 == name)).length = 0 →
      admin_remove s name = (s, AdminRemoveReply.notAnAdmin name)) ∧
    (0 < (s.filter (fun row => row.2 == name)).length →
      admin_remove s name
        = (s.filter (fun row => !(row.2 == name)), AdminRemoveReply.removed name) ∧
      ∀ row ∈ (admin_remove s name).1, row.2 ≠ name) := by
  constructor
  · intro h
    simp [admin_remove, h]
  · intro h
    have hne : ¬((s.filter (fun row => row.2 == name)).length = 0) := by omega
    refine ⟨if_neg hne, ?_⟩
    intro row hrow
    simp only [admin_remove, if_neg hne] at hrow
    have hr := (List.mem_filter.1 hrow).2
    simpa using hr

/-- Witness for C9: removing "alice" from a one-row admin table. -/
theorem admin_remove_spec_witness :
    0 < (([("1", "alice")] : AdminStore).filter (fun row => row.2 == "alice")).length ∧
    (admin_remove [("1", "alice")] "alice"
        = (([("1", "alice")] : AdminStore).filter (fun row => !(row.2 == "alice")),
          AdminRemoveReply.removed "alice") ∧
      ∀ row ∈ (admin_remove [("1", "alice")] "alice").1, row.2 ≠ "alice") :=
  ⟨by decide, (admin_remove_spec [("1", "alice")] "alice").2 (by decide)⟩

end Roboclic
